import Mathlib

/-!
Verification of the Mezzanine walkthrough viewer (src/main.cpp).

The camera-navigation functions (`clampFloat`, `between`,
`correctForBoundaries`, `teleportIfNecessary`, the movement cases of
`handleKeyboard` and the yaw update of `handleMouseMotion`) and the model
parser (`Obj::readFile`, `Obj::toBuffer`) are embedded as pure Lean
functions.  C++ `float` values are modelled as rationals (`ℚ`): every
operation these functions perform on floats is a comparison or a copy of a
decimal constant, never arithmetic, so the control flow coincides with the
rational one on all float-representable inputs.
-/

namespace Mezzanine

/-- `Point3` from main.cpp: an (x, y, z) triple of floats, default (0,0,0). -/
structure Point3 where
  x : ℚ := 0
  y : ℚ := 0
  z : ℚ := 0
deriving DecidableEq, Repr

/-- `clampFloat(value, min, max)` from main.cpp lines 424-430. -/
def clampFloat (value lo hi : ℚ) : ℚ :=
  if value < lo then lo
  else if value > hi then hi
  else value

/-- `between(value, min, max)` from main.cpp lines 432-433: inclusive at both
ends. -/
def between (value lo hi : ℚ) : Bool :=
  value ≥ lo && value ≤ hi

/-- `correctForBoundaries()` from main.cpp lines 361-394, as a pure function
of the camera position.  The C++ mutates `cameraPos` field by field; each
later test reads the already-clamped value, which the `let` sequencing
reproduces.  The `glTranslatef` calls touch only the GL matrix, not the
position. -/
def correctForBoundaries (p : Point3) : Point3 :=
  -- Base
  let x := clampFloat p.x (-11.5) 11.5
  let z := clampFloat p.z (-10) 10
  -- Mezzanine
  if p.y < -7.53 then
    if between z (-10) (-4.64) then
      -- in front of the stairs
      let x := clampFloat x (-5.45) 11.5
      if between x (-5.45) 4.5 then
        -- beside the hole
        ⟨x, p.y, clampFloat z (-10) (-4.64)⟩
      else ⟨x, p.y, z⟩
    else if between z 4.76 10 then
      -- opposite to the first stretch
      let x := clampFloat x (-2.6) 11.5
      if between x (-2.6) 4.5 then
        -- beside the hole
        ⟨x, p.y, clampFloat z 4.76 10⟩
      else ⟨x, p.y, z⟩
    else if between z (-4.64) 4.76 then
      -- in front of the hole
      ⟨clampFloat x 4.5 11.5, p.y, z⟩
    else ⟨x, p.y, z⟩
  else ⟨x, p.y, z⟩

/-- First trigger condition of `teleportIfNecessary` (main.cpp lines
402-404): lower stair step. -/
def inTrigger1 (p : Point3) : Bool :=
  between p.x (-11.5) (-7.5) && between p.z (-2.5) (-1.5)
    && between p.y (-2.01) (-1.99)

/-- Second trigger condition of `teleportIfNecessary` (main.cpp lines
412-414): upper stair step. -/
def inTrigger2 (p : Point3) : Bool :=
  between p.x (-3.32) (-2.32) && between p.z (-10) (-7.5)
    && between p.y (-7.55) (-7.53)

/-- `teleportIfNecessary()` from main.cpp lines 396-422, as a pure function
of the camera position.  The two `if`s are sequential (not else-if): the
second test reads the position possibly rewritten by the first. -/
def teleportIfNecessary (p : Point3) : Point3 :=
  -- Lower stair step -> upper floor
  let p1 : Point3 := if inTrigger1 p then ⟨1.86, -7.54, -9.9⟩ else p
  -- Upper stair step -> lower floor
  if inTrigger2 p1 then ⟨-9.35, -2, 0⟩ else p1

/-- The keys `handleKeyboard` (main.cpp lines 264-306) dispatches on.
`other` is any key that is none of w/s/a/d/q (the `default` case, a no-op on
the position); `q` calls `exit(0)` before the position pipeline runs, so it
is not a position update and is not modelled. -/
inductive Key
  | w
  | s
  | a
  | d
  | other
deriving DecidableEq, Repr

/-- The position update of `handleKeyboard`'s switch statement (main.cpp
lines 269-296): the forward vector's x and z components are added or
subtracted; `cameraPos->y` is never touched. -/
def moveCamera (key : Key) (forward p : Point3) : Point3 :=
  match key with
  | .w => ⟨p.x + forward.x, p.y, p.z + forward.z⟩
  | .s => ⟨p.x - forward.x, p.y, p.z - forward.z⟩
  | .a => ⟨p.x + forward.z, p.y, p.z - forward.x⟩
  | .d => ⟨p.x - forward.z, p.y, p.z + forward.x⟩
  | .other => p

/-- `handleKeyboard` (main.cpp lines 264-306) restricted to its effect on
`cameraPos`, with the forward vector (read from the GL modelview matrix by
`getCameraForward`, an external collaborator) passed as an input: the switch
updates the position, then `correctForBoundaries()` and
`teleportIfNecessary()` run unconditionally, in that order (lines 298-299).
-/
def handleKeyboard (key : Key) (forward p : Point3) : Point3 :=
  teleportIfNecessary (correctForBoundaries (moveCamera key forward p))

/-- Componentwise vector sum, used to state the spec's `position += F`. -/
def Point3.add (a b : Point3) : Point3 := ⟨a.x + b.x, a.y + b.y, a.z + b.z⟩

/-- Componentwise vector difference, the spec's `position -= F`. -/
def Point3.sub (a b : Point3) : Point3 := ⟨a.x - b.x, a.y - b.y, a.z - b.z⟩

/-- Modelled from the spec: `rotate90` maps (x,_,z) to (z,_,-x).  The source
has no such function; the spec uses it to describe the strafing cases of
`handleKeyboard`. -/
def rotate90 (f : Point3) : Point3 := ⟨f.z, f.y, -f.x⟩

/-- The yaw update of `handleMouseMotion` (main.cpp line 315) when the mouse
moved left: `cameraRotationY = cameraRotationY >= 359 ? 0 :
cameraRotationY + 1`. -/
def lookLeft (yaw : ℚ) : ℚ := if yaw ≥ 359 then 0 else yaw + 1

/-- The yaw update of `handleMouseMotion` (main.cpp line 323) in the other
branch: `cameraRotationY = cameraRotationY <= 0 ? 359 : cameraRotationY - 1`.
-/
def lookRight (yaw : ℚ) : ℚ := if yaw ≤ 0 then 359 else yaw - 1

/-- Yaw values reachable from the initial `cameraRotationY = 0` (main.cpp
line 210) by look events. -/
inductive ReachableYaw : ℚ → Prop
  | init : ReachableYaw 0
  | left {y : ℚ} : ReachableYaw y → ReachableYaw (lookLeft y)
  | right {y : ℚ} : ReachableYaw y → ReachableYaw (lookRight y)

/-! The model parser: `Obj::readFile` (main.cpp lines 62-111) and the index
resolution done by `Obj::toBuffer` (lines 113-126).  The `sscanf_s` calls
are modelled conversion by conversion: `%f` and `%d` skip leading
whitespace, take an optional sign and decimal digits, assign the field on
success and abort the remaining fields of the call on failure; a literal
`//` in the format must match immediately. -/

/-- Whitespace accepted by `scanf`'s numeric conversions. -/
def isScanSpace (c : Char) : Bool :=
  c = ' ' || c = '\t' || c = '\n' || c = '\r' || c = '\x0b' || c = '\x0c'

/-- Drop leading `scanf` whitespace. -/
def skipSpaces (s : List Char) : List Char :=
  match s with
  | [] => []
  | c :: cs => if isScanSpace c then skipSpaces cs else c :: cs

/-- Optional sign of a `%f`/`%d` conversion; `true` means negative. -/
def scanSign (s : List Char) : Bool × List Char :=
  match s with
  | '-' :: cs => (true, cs)
  | '+' :: cs => (false, cs)
  | _ => (false, s)

/-- Numeric value of a string of decimal digits. -/
def digitsToNat (ds : List Char) : ℕ :=
  ds.foldl (fun a c => 10 * a + (c.toNat - 48)) 0

/-- The rational `m * 10^shift`, built from integer arithmetic. -/
def scaleByPow10 (m : ℤ) (shift : ℤ) : ℚ :=
  if 0 ≤ shift then mkRat (m * 10 ^ shift.toNat) 1
  else mkRat m (10 ^ (-shift).toNat)

/-- Exponent digits of a `%f` conversion, after the `e`: optional sign then
one or more digits; no digit makes the whole conversion fail, as `scanf`
does. -/
def scanFloatExpDigits (m : ℤ) (fracLen : ℕ) (s : List Char) :
    Option (ℚ × List Char) :=
  let p := scanSign s
  let ds := p.2.takeWhile Char.isDigit
  if ds.isEmpty then none
  else
    let e : ℤ := if p.1 then -(digitsToNat ds : ℤ) else (digitsToNat ds : ℤ)
    some (scaleByPow10 m (e - (fracLen : ℤ)), p.2.dropWhile Char.isDigit)

/-- Optional exponent part of a `%f` conversion and final value: `mant` is
the mantissa read so far as an integer, `fracLen` the number of digits after
the decimal point. -/
def scanFloatExp (neg : Bool) (mant : ℕ) (fracLen : ℕ) (s : List Char) :
    Option (ℚ × List Char) :=
  let m : ℤ := if neg then -(mant : ℤ) else (mant : ℤ)
  match s with
  | 'e' :: rest => scanFloatExpDigits m fracLen rest
  | 'E' :: rest => scanFloatExpDigits m fracLen rest
  | _ => some (scaleByPow10 m (-(fracLen : ℤ)), s)

/-- One `%f` conversion, as in `Obj::readFile`'s `sscanf_s` calls: skip
whitespace, optional sign, decimal digits with optional fraction and
optional exponent; at least one digit is required.  `scanf` additionally
accepts hex floats and `inf`/`nan` spellings, which the scene files and
claims never use; `float` rounding is not modelled, values are exact
rationals. -/
def scanFloat (s : List Char) : Option (ℚ × List Char) :=
  let p := scanSign (skipSpaces s)
  let ip := p.2.takeWhile Char.isDigit
  let s2 := p.2.dropWhile Char.isDigit
  match s2 with
  | '.' :: s3 =>
    let fp := s3.takeWhile Char.isDigit
    if ip.isEmpty && fp.isEmpty then none
    else scanFloatExp p.1 (digitsToNat (ip ++ fp)) fp.length
      (s3.dropWhile Char.isDigit)
  | _ =>
    if ip.isEmpty then none
    else scanFloatExp p.1 (digitsToNat ip) 0 s2

/-- One `%d` conversion: skip whitespace, optional sign, one or more decimal
digits.  `int` overflow is undefined behaviour and is not modelled; the
scene files' indices are small. -/
def scanInt (s : List Char) : Option (ℤ × List Char) :=
  let p := scanSign (skipSpaces s)
  let ds := p.2.takeWhile Char.isDigit
  if ds.isEmpty then none
  else
    some ((if p.1 then -(digitsToNat ds : ℤ) else (digitsToNat ds : ℤ)),
      p.2.dropWhile Char.isDigit)

/-- The three `%f` fields of the `v`/`vn` formats, after the literal prefix:
`sscanf` assigns each successfully converted field in order and stops at the
first failure; unassigned fields keep the `Point3` declaration's zero
initialisers (main.cpp line 31). -/
def scan3Floats (s : List Char) : Point3 :=
  match scanFloat s with
  | none => ⟨0, 0, 0⟩
  | some (x, s1) =>
    match scanFloat s1 with
    | none => ⟨x, 0, 0⟩
    | some (y, s2) =>
      match scanFloat s2 with
      | none => ⟨x, y, 0⟩
      | some (z, _) => ⟨x, y, z⟩

/-- `Face` from main.cpp lines 42-46: four vertex ids and four normal ids,
exactly as stored by the parser (1-based, straight from the file).  The C++
arrays are uninitialised: a slot `sscanf` never assigns holds an
indeterminate value, modelled as `none`. -/
structure Face where
  vertexIds : List (Option ℤ)
  normalIds : List (Option ℤ)
deriving DecidableEq, Repr

/-- A literal `//` of the face format followed by a `%d`: the two slashes
must match immediately after the previous field's digits. -/
def scanSlashInt (s : List Char) : Option (ℤ × List Char) :=
  match s with
  | '/' :: '/' :: rest => scanInt rest
  | _ => none

/-- Up to `k` of the face format's `%d//%d` pairs, returning the fields
assigned before the first failure, in format order. -/
def scanPairs : ℕ → List Char → List ℤ
  | 0, _ => []
  | k + 1, s =>
    match scanInt s with
    | none => []
    | some (v, s1) =>
      v :: (match scanSlashInt s1 with
        | none => []
        | some (n, s2) => n :: scanPairs k s2)

/-- The eight `%d` fields of `f %d//%d %d//%d %d//%d %d//%d`, after the
literal `f`. -/
def scanFaceFields (s : List Char) : List ℤ :=
  scanPairs 4 s

/-- The `Face` stored for a face line: even fields are vertex ids, odd
fields normal ids; fields never assigned stay indeterminate. -/
def mkFace (fields : List ℤ) : Face :=
  { vertexIds := [fields[0]?, fields[2]?, fields[4]?, fields[6]?],
    normalIds := [fields[1]?, fields[3]?, fields[5]?, fields[7]?] }

/-- `Obj` from main.cpp lines 48-53: name, vertices, normals, faces, with
the default constructor's empty state. -/
structure Obj where
  name : String := ""
  vertices : List Point3 := []
  normals : List Point3 := []
  faces : List Face := []
deriving DecidableEq, Repr

/-- One iteration of `Obj::readFile`'s line loop (main.cpp lines 70-108).
Returns the updated object, and whether the "Invalid syntax or unsupported
parameter" diagnostic was printed for this line.  `line[0]` on an empty
`std::string` reads the terminating null character, hence the `'\x00'`
default for an empty line.  The literal prefixes of the `sscanf_s` formats
(`v`, `vn`, `f`) always match, because the dispatch already checked those
characters. -/
def processLine (o : Obj) (line : String) : Obj × Bool :=
  let l := line.data
  let c0 := l.headD (Char.ofNat 0)
  if c0 = '#' then (o, false)
  else if c0 = 'o' then ({ o with name := String.mk (l.drop 1) }, false)
  else if c0 = 'v' then
    if (l.drop 1).headD (Char.ofNat 0) = 'n' then
      ({ o with normals := o.normals ++ [scan3Floats (l.drop 2)] }, false)
    else
      ({ o with vertices := o.vertices ++ [scan3Floats (l.drop 1)] }, false)
  else if c0 = 'f' then
    ({ o with faces := o.faces ++ [mkFace (scanFaceFields (l.drop 1))] }, false)
  else (o, true)

/-- `Obj::readFile` (main.cpp lines 62-111) over the file's lines, starting
from the default-constructed `Obj`.  The source never checks whether the
file opened; an unreadable file behaves as an empty line list. -/
def readFile (lines : List String) : Obj :=
  lines.foldl (fun o line => (processLine o line).1) {}

/-- Resolution of one stored 1-based id, as `Obj::toBuffer` does with
`vertices[vertexIds[j] - 1]` (main.cpp lines 119-120).  `none` models an
access outside the vector (undefined behaviour in the C++) or the read of an
indeterminate slot. -/
def resolveId (xs : List Point3) (id? : Option ℤ) : Option Point3 :=
  match id? with
  | none => none
  | some i => if 1 ≤ i then xs[(i - 1).toNat]? else none

/-- The vertex/normal pairs `Obj::toBuffer` submits for one face, in
submission order; `none` when any access fails to resolve. -/
def faceData (o : Obj) (f : Face) : Option (List (Point3 × Point3)) :=
  (f.vertexIds.zip f.normalIds).mapM fun vn =>
    match resolveId o.vertices vn.1, resolveId o.normals vn.2 with
    | some v, some n => some (v, n)
    | _, _ => none

/-- All data `Obj::toBuffer` (main.cpp lines 113-126) submits: every face's
resolved quad, in order; `none` when any index fails to resolve. -/
def toBufferData (o : Obj) : Option (List (Point3 × Point3)) :=
  (o.faces.mapM (faceData o)).map List.flatten

/-- Characterisation of `correctForBoundaries`'s fixed points: inside the
outer footprint, and on the mezzanine level inside the L-shaped strip the
zone clamps enforce. -/
def ClampFix (q : Point3) : Prop :=
  -11.5 ≤ q.x ∧ q.x ≤ 11.5 ∧ -10 ≤ q.z ∧ q.z ≤ 10 ∧
  (q.y < -7.53 →
    (q.z ≤ -4.64 → -5.45 ≤ q.x) ∧
    (4.76 ≤ q.z → -2.6 ≤ q.x) ∧
    (-4.64 < q.z → q.z < 4.76 → 4.5 ≤ q.x))

/-! Helper lemmas. -/

theorem between_eq_true {v lo hi : ℚ} :
    between v lo hi = true ↔ lo ≤ v ∧ v ≤ hi := by
  simp [between]

theorem clampFloat_mem {v lo hi : ℚ} (h : lo ≤ hi) :
    lo ≤ clampFloat v lo hi ∧ clampFloat v lo hi ≤ hi := by
  unfold clampFloat; split_ifs <;> constructor <;> linarith

theorem clampFloat_eq_self {v lo hi : ℚ} (h1 : lo ≤ v) (h2 : v ≤ hi) :
    clampFloat v lo hi = v := by
  unfold clampFloat; split_ifs <;> linarith

theorem clampFix_correct (p : Point3) : ClampFix (correctForBoundaries p) := by
  have hx := @clampFloat_mem (p.x) (-11.5) (11.5) (by norm_num)
  have hz := @clampFloat_mem (p.z) (-10) (10) (by norm_num)
  simp only [correctForBoundaries]
  split_ifs with hy hA hAx hB hBx hC
  · -- stairs strip, beside the hole
    have hxa := @clampFloat_mem (clampFloat p.x (-11.5) 11.5) (-5.45) (11.5) (by norm_num)
    have hza := @clampFloat_mem (clampFloat p.z (-10) 10) (-10) (-4.64) (by norm_num)
    exact ⟨by linarith [hxa.1], hxa.2, hza.1, by linarith [hza.2],
      fun _ => ⟨fun _ => hxa.1, fun h => by linarith [hza.2],
        fun h _ => by linarith [hza.2]⟩⟩
  · -- stairs strip, not beside the hole
    rw [between_eq_true] at hA
    have hxa := @clampFloat_mem (clampFloat p.x (-11.5) 11.5) (-5.45) (11.5) (by norm_num)
    exact ⟨by linarith [hxa.1], hxa.2, hA.1, by linarith [hA.2],
      fun _ => ⟨fun _ => hxa.1, fun h => by linarith [hA.2],
        fun h _ => by linarith [hA.2]⟩⟩
  · -- far strip, beside the hole
    have hxb := @clampFloat_mem (clampFloat p.x (-11.5) 11.5) (-2.6) (11.5) (by norm_num)
    have hzb := @clampFloat_mem (clampFloat p.z (-10) 10) (4.76) (10) (by norm_num)
    exact ⟨by linarith [hxb.1], hxb.2, by linarith [hzb.1], hzb.2,
      fun _ => ⟨fun h => by linarith [hzb.1], fun _ => hxb.1,
        fun _ h => by linarith [hzb.1]⟩⟩
  · -- far strip, not beside the hole
    rw [between_eq_true] at hB
    have hxb := @clampFloat_mem (clampFloat p.x (-11.5) 11.5) (-2.6) (11.5) (by norm_num)
    exact ⟨by linarith [hxb.1], hxb.2, by linarith [hB.1], hB.2,
      fun _ => ⟨fun h => by linarith [hB.1], fun _ => hxb.1,
        fun _ h => by linarith [hB.1]⟩⟩
  · -- in front of the hole
    rw [between_eq_true] at hA hB hC
    have hxc := @clampFloat_mem (clampFloat p.x (-11.5) 11.5) (4.5) (11.5) (by norm_num)
    have hgt : (-4.64 : ℚ) < clampFloat p.z (-10) 10 :=
      not_le.mp fun hle => hA ⟨hz.1, hle⟩
    exact ⟨by linarith [hxc.1], hxc.2, hz.1, hz.2,
      fun _ => ⟨fun h => by linarith, fun h => by linarith [hxc.1],
        fun _ _ => hxc.1⟩⟩
  · -- mezzanine level with no strip matched: impossible, the strips cover z
    rw [between_eq_true] at hA hB hC
    have hgt : (-4.64 : ℚ) < clampFloat p.z (-10) 10 :=
      not_le.mp fun hle => hA ⟨hz.1, hle⟩
    have hlt : clampFloat p.z (-10) 10 < 4.76 :=
      not_le.mp fun hge => hB ⟨hge, hz.2⟩
    exact absurd ⟨le_of_lt hgt, le_of_lt hlt⟩ hC
  · -- below the mezzanine test
    exact ⟨hx.1, hx.2, hz.1, hz.2, fun h => absurd h hy⟩

theorem correctForBoundaries_of_clampFix (p : Point3) (h : ClampFix p) :
    correctForBoundaries p = p := by
  obtain ⟨hx1, hx2, hz1, hz2, hm⟩ := h
  simp only [correctForBoundaries]
  rw [clampFloat_eq_self hx1 hx2, clampFloat_eq_self hz1 hz2]
  split_ifs with hy hA hAx hB hBx hC
  · rw [between_eq_true] at hA
    rw [clampFloat_eq_self ((hm hy).1 hA.2) hx2, clampFloat_eq_self hA.1 hA.2]
  · rw [between_eq_true] at hA
    rw [clampFloat_eq_self ((hm hy).1 hA.2) hx2]
  · rw [between_eq_true] at hB
    rw [clampFloat_eq_self ((hm hy).2.1 hB.1) hx2, clampFloat_eq_self hB.1 hB.2]
  · rw [between_eq_true] at hB
    rw [clampFloat_eq_self ((hm hy).2.1 hB.1) hx2]
  · rw [between_eq_true] at hA hB hC
    have hgt : (-4.64 : ℚ) < p.z := not_le.mp fun hle => hA ⟨hz1, hle⟩
    have hlt : p.z < 4.76 := not_le.mp fun hge => hB ⟨hge, hz2⟩
    rw [clampFloat_eq_self ((hm hy).2.2 hgt hlt) hx2]
  · rfl
  · rfl

theorem inTrigger1_eq_true {p : Point3} : inTrigger1 p = true ↔
    (-11.5 ≤ p.x ∧ p.x ≤ -7.5) ∧ (-2.5 ≤ p.z ∧ p.z ≤ -1.5) ∧
    (-2.01 ≤ p.y ∧ p.y ≤ -1.99) := by
  simp [inTrigger1, between_eq_true, and_assoc]

theorem inTrigger2_eq_true {p : Point3} : inTrigger2 p = true ↔
    (-3.32 ≤ p.x ∧ p.x ≤ -2.32) ∧ (-10 ≤ p.z ∧ p.z ≤ -7.5) ∧
    (-7.55 ≤ p.y ∧ p.y ≤ -7.53) := by
  simp [inTrigger2, between_eq_true, and_assoc]

theorem reachableYaw_int {y : ℚ} (h : ReachableYaw y) :
    ∃ n : ℤ, y = (n : ℚ) ∧ 0 ≤ n ∧ n ≤ 359 := by
  induction h with
  | init => exact ⟨0, by norm_num⟩
  | left _ ih =>
    obtain ⟨n, rfl, h0, h1⟩ := ih
    unfold lookLeft
    split_ifs with hge
    · exact ⟨0, by norm_num⟩
    · have hn : n < 359 := by exact_mod_cast not_le.mp hge
      exact ⟨n + 1, by push_cast; ring, by omega, by omega⟩
  | right _ ih =>
    obtain ⟨n, rfl, h0, h1⟩ := ih
    unfold lookRight
    split_ifs with hle
    · exact ⟨359, by norm_num⟩
    · have hn : 0 < n := by exact_mod_cast not_le.mp hle
      exact ⟨n - 1, by push_cast; ring, by omega, by omega⟩

/-! Claim theorems. -/

/-- C1: for every input position p, the position returned by the boundary
clamp `correctForBoundaries` satisfies x ∈ [-11.5, 11.5] and z ∈ [-10, 10].
-/
theorem C1_clamp_within_outer_footprint (p : Point3) :
    -11.5 ≤ (correctForBoundaries p).x ∧ (correctForBoundaries p).x ≤ 11.5 ∧
    -10 ≤ (correctForBoundaries p).z ∧ (correctForBoundaries p).z ≤ 10 :=
  ⟨(clampFix_correct p).1, (clampFix_correct p).2.1,
   (clampFix_correct p).2.2.1, (clampFix_correct p).2.2.2.1⟩

/-- C2, counterexample: the claim's concrete instance "input (-2.8, -2,
-7.6) yields (-9.35, -2, 0)" is false: that point's y = -2 is outside the
second trigger box's y-range [-7.55, -7.53] (and it is outside the first
box too), so `teleportIfNecessary` leaves it unchanged. -/
theorem C2_counterexample :
    teleportIfNecessary ⟨-2.8, -2, -7.6⟩ = ⟨-2.8, -2, -7.6⟩ ∧
    (⟨-2.8, -2, -7.6⟩ : Point3) ≠ ⟨-9.35, -2, 0⟩ := by
  norm_num [teleportIfNecessary, inTrigger1, inTrigger2, between]

/-- C2, amended: the teleport check maps any position inside the first box
to exactly (1.86, -7.54, -9.9), any position inside the second box to
exactly (-9.35, -2, 0), leaves every other position unchanged, and the two
boxes are mutually exclusive.  Input (-9, -2, -2) yields (1.86, -7.54,
-9.9); input (-2.8, -2, -7.6) is outside both boxes and is unchanged (a
position inside the second box, such as (-2.8, -7.54, -7.6), yields (-9.35,
-2, 0)); input (0, 0, 0) is unchanged. -/
theorem C2_amended_teleport_mapping (p : Point3) :
    ((-11.5 ≤ p.x ∧ p.x ≤ -7.5) ∧ (-2.5 ≤ p.z ∧ p.z ≤ -1.5) ∧
        (-2.01 ≤ p.y ∧ p.y ≤ -1.99) →
      teleportIfNecessary p = ⟨1.86, -7.54, -9.9⟩) ∧
    ((-3.32 ≤ p.x ∧ p.x ≤ -2.32) ∧ (-10 ≤ p.z ∧ p.z ≤ -7.5) ∧
        (-7.55 ≤ p.y ∧ p.y ≤ -7.53) →
      teleportIfNecessary p = ⟨-9.35, -2, 0⟩) ∧
    (inTrigger1 p = false → inTrigger2 p = false → teleportIfNecessary p = p) ∧
    ¬(inTrigger1 p = true ∧ inTrigger2 p = true) ∧
    teleportIfNecessary ⟨-9, -2, -2⟩ = ⟨1.86, -7.54, -9.9⟩ ∧
    teleportIfNecessary ⟨-2.8, -7.54, -7.6⟩ = ⟨-9.35, -2, 0⟩ ∧
    teleportIfNecessary ⟨0, 0, 0⟩ = ⟨0, 0, 0⟩ := by
  have hsep : ¬(inTrigger1 p = true ∧ inTrigger2 p = true) := by
    rintro ⟨h1, h2⟩
    have a := (inTrigger1_eq_true.mp h1).2.1
    have b := (inTrigger2_eq_true.mp h2).2.1
    linarith [a.1, b.2]
  refine ⟨?_, ?_, ?_, hsep, ?_, ?_, ?_⟩
  · intro hbox
    have h1 := inTrigger1_eq_true.mpr hbox
    have h2 : inTrigger2 (⟨1.86, -7.54, -9.9⟩ : Point3) = false := by
      norm_num [inTrigger2, between]
    simp [teleportIfNecessary, h1, h2]
  · intro hbox
    have h2 := inTrigger2_eq_true.mpr hbox
    have h1 : inTrigger1 p = false := by
      rcases Bool.eq_false_or_eq_true (inTrigger1 p) with h | h
      · exact absurd ⟨h, h2⟩ hsep
      · exact h
    simp [teleportIfNecessary, h1, h2]
  · intro h1 h2
    simp [teleportIfNecessary, h1, h2]
  · norm_num [teleportIfNecessary, inTrigger1, inTrigger2, between]
  · norm_num [teleportIfNecessary, inTrigger1, inTrigger2, between]
  · norm_num [teleportIfNecessary, inTrigger1, inTrigger2, between]

/-- C2, witness: the amended mapping at the concrete point (-9, -2, -2),
which lies inside the first trigger box. -/
theorem C2_witness :
    teleportIfNecessary ⟨-9, -2, -2⟩ = ⟨1.86, -7.54, -9.9⟩ :=
  (C2_amended_teleport_mapping ⟨-9, -2, -2⟩).1 (by norm_num)

/-- C3, counterexample: the claim includes the endpoint z = -4.64, but at
p = (0, -8, -4.64) the first mezzanine branch (z ∈ [-10, -4.64]) fires, not
the hole branch, and the clamped x stays 0 ∉ [4.5, 11.5], even though
p.y < -7.53 and p.z ∈ [-4.64, 4.76]. -/
theorem C3_counterexample :
    (-8 : ℚ) < -7.53 ∧ ((-4.64 : ℚ) ≤ -4.64 ∧ (-4.64 : ℚ) ≤ 4.76) ∧
    ¬(4.5 ≤ (correctForBoundaries ⟨0, -8, -4.64⟩).x) := by
  norm_num [correctForBoundaries, clampFloat, between]

/-- C3, amended: for every position p with p.y < -7.53 and p.z strictly
inside (-4.64, 4.76) (both endpoints excluded: they belong to the two strip
branches, which are tested first), the boundary clamp forces x ∈ [4.5,
11.5]. -/
theorem C3_amended_hole_strip (p : Point3) (hy : p.y < -7.53)
    (h1 : -4.64 < p.z) (h2 : p.z < 4.76) :
    4.5 ≤ (correctForBoundaries p).x ∧ (correctForBoundaries p).x ≤ 11.5 := by
  have hz : clampFloat p.z (-10) 10 = p.z :=
    clampFloat_eq_self (by linarith) (by linarith)
  simp only [correctForBoundaries, hz, if_pos hy]
  split_ifs with hA hAx hB hBx hC
  · exfalso; have := (between_eq_true.mp hA).2; linarith
  · exfalso; have := (between_eq_true.mp hA).2; linarith
  · exfalso; have := (between_eq_true.mp hB).1; linarith
  · exfalso; have := (between_eq_true.mp hB).1; linarith
  · exact clampFloat_mem (by norm_num)
  · exact absurd (between_eq_true.mpr ⟨by linarith, by linarith⟩) hC

/-- C3, witness: the amended bound at the concrete point (0, -8, 0). -/
theorem C3_witness :
    4.5 ≤ (correctForBoundaries ⟨0, -8, 0⟩).x ∧
    (correctForBoundaries ⟨0, -8, 0⟩).x ≤ 11.5 :=
  C3_amended_hole_strip ⟨0, -8, 0⟩ (by norm_num) (by norm_num) (by norm_num)

/-- C4: the boundary clamp is idempotent: applying `correctForBoundaries`
twice gives the same result as applying it once, for every position. -/
theorem C4_clamp_idempotent (p : Point3) :
    correctForBoundaries (correctForBoundaries p) = correctForBoundaries p :=
  correctForBoundaries_of_clampFix _ (clampFix_correct p)

/-- C5: with F the current forward vector (horizontal, as the spec
requires), the forward key adds F to the position, backward subtracts F,
strafe left adds rotate90(F), strafe right subtracts rotate90(F), an
unrecognised key moves nothing, and in every case the event applies the
boundary clamp first and the teleport check second, unconditionally. -/
theorem C5_movement_integration (f p : Point3) (hf : f.y = 0) :
    handleKeyboard .w f p =
      teleportIfNecessary (correctForBoundaries (p.add f)) ∧
    handleKeyboard .s f p =
      teleportIfNecessary (correctForBoundaries (p.sub f)) ∧
    handleKeyboard .a f p =
      teleportIfNecessary (correctForBoundaries (p.add (rotate90 f))) ∧
    handleKeyboard .d f p =
      teleportIfNecessary (correctForBoundaries (p.sub (rotate90 f))) ∧
    handleKeyboard .other f p =
      teleportIfNecessary (correctForBoundaries p) := by
  refine ⟨?_, ?_, ?_, ?_, rfl⟩ <;>
    simp [handleKeyboard, moveCamera, Point3.add, Point3.sub, rotate90, hf,
      sub_eq_add_neg]

/-- C5, witness: the movement equations at F = (1, 0, 0), p = (0, 0, 0). -/
theorem C5_witness :
    handleKeyboard .w ⟨1, 0, 0⟩ ⟨0, 0, 0⟩ =
      teleportIfNecessary (correctForBoundaries (Point3.add ⟨0, 0, 0⟩ ⟨1, 0, 0⟩)) ∧
    handleKeyboard .s ⟨1, 0, 0⟩ ⟨0, 0, 0⟩ =
      teleportIfNecessary (correctForBoundaries (Point3.sub ⟨0, 0, 0⟩ ⟨1, 0, 0⟩)) ∧
    handleKeyboard .a ⟨1, 0, 0⟩ ⟨0, 0, 0⟩ =
      teleportIfNecessary
        (correctForBoundaries (Point3.add ⟨0, 0, 0⟩ (rotate90 ⟨1, 0, 0⟩))) ∧
    handleKeyboard .d ⟨1, 0, 0⟩ ⟨0, 0, 0⟩ =
      teleportIfNecessary
        (correctForBoundaries (Point3.sub ⟨0, 0, 0⟩ (rotate90 ⟨1, 0, 0⟩))) ∧
    handleKeyboard .other ⟨1, 0, 0⟩ ⟨0, 0, 0⟩ =
      teleportIfNecessary (correctForBoundaries ⟨0, 0, 0⟩) :=
  C5_movement_integration ⟨1, 0, 0⟩ ⟨0, 0, 0⟩ rfl

/-- C6, counterexample: the claim also covers lines that start with a
recognised character but fail to scan their numeric fields, yet the line
"v garbage" appends a defaulted vertex (0, 0, 0) — the vertex count changes
— and prints no invalid-syntax diagnostic. -/
theorem C6_counterexample :
    (processLine {} "v garbage").1.vertices = [⟨0, 0, 0⟩] ∧
    (processLine {} "v garbage").2 = false := by
  decide

/-- C6, amended: a line whose leading character is unrecognised (none of
'#', 'o', 'v', 'f'; an empty line reads the terminating null) gets the
invalid-syntax diagnostic and is skipped with the mesh unchanged — in
particular "x garbage" has zero effect.  A 'v'/'vn'/'f' line that fails to
scan, however, still appends an element with the unscanned fields defaulted
(vertices/normals) or indeterminate (faces). -/
theorem C6_amended_unknown_lines (o : Obj) (line : String)
    (h : line.data.headD (Char.ofNat 0) ∉ (['#', 'o', 'v', 'f'] : List Char)) :
    processLine o line = (o, true) := by
  simp only [List.mem_cons, List.not_mem_nil, or_false, not_or] at h
  simp only [processLine]
  rw [if_neg h.1, if_neg h.2.1, if_neg h.2.2.1, if_neg h.2.2.2]

/-- C6, witness: the line "x garbage" has zero effect on the mesh and gets
the diagnostic. -/
theorem C6_witness : processLine {} "x garbage" = ({}, true) :=
  C6_amended_unknown_lines {} "x garbage" (by decide)

/-- C7, counterexample: parsing the sample stores face indices [1, 1, 1, 1]
— the 1-based indices exactly as written in the file — not the claim's
[0, 0, 0, 0]: the conversion to 0-based does not happen on load. -/
theorem C7_counterexample :
    (readFile ["o Test", "v 1 2 3", "vn 0 1 0", "f 1//1 1//1 1//1 1//1"]).faces =
      [⟨[some 1, some 1, some 1, some 1], [some 1, some 1, some 1, some 1]⟩] ∧
    (readFile ["o Test", "v 1 2 3", "vn 0 1 0", "f 1//1 1//1 1//1 1//1"]).faces ≠
      [⟨[some 0, some 0, some 0, some 0], [some 0, some 0, some 0, some 0]⟩] := by
  decide

/-- C7, amended: parsing the sample yields Mesh{name = " Test" (leading
whitespace preserved), vertices = [(1,2,3)], normals = [(0,1,0)]} and one
face storing the 1-based indices [1,1,1,1]/[1,1,1,1]; the indices are
converted to 0-based when resolved at buffer submission (`toBuffer`
subtracts 1), where the face resolves to vertex (1,2,3) with normal (0,1,0)
four times. -/
theorem C7_amended_parse_sample :
    readFile ["o Test", "v 1 2 3", "vn 0 1 0", "f 1//1 1//1 1//1 1//1"] =
      { name := " Test", vertices := [⟨1, 2, 3⟩], normals := [⟨0, 1, 0⟩],
        faces := [⟨[some 1, some 1, some 1, some 1],
                   [some 1, some 1, some 1, some 1]⟩] } ∧
    toBufferData
        (readFile ["o Test", "v 1 2 3", "vn 0 1 0", "f 1//1 1//1 1//1 1//1"]) =
      some [(⟨1, 2, 3⟩, ⟨0, 1, 0⟩), (⟨1, 2, 3⟩, ⟨0, 1, 0⟩),
        (⟨1, 2, 3⟩, ⟨0, 1, 0⟩), (⟨1, 2, 3⟩, ⟨0, 1, 0⟩)] := by
  decide

/-- C8: the parser performs no index validation at all: the face line
`f 5//5 5//5 5//5 5//5` loads without any error against a mesh with a single
vertex and normal, storing the out-of-range index 5, and resolving it at
submission time runs out of range (undefined behaviour in the C++,
modelled as `none`) — there is no load-time error, contrary to the claim. -/
theorem C8_no_load_time_check :
    (readFile ["v 1 2 3", "vn 0 1 0", "f 5//5 5//5 5//5 5//5"]).faces =
      [⟨[some 5, some 5, some 5, some 5], [some 5, some 5, some 5, some 5]⟩] ∧
    (readFile ["v 1 2 3", "vn 0 1 0", "f 5//5 5//5 5//5 5//5"]).vertices.length = 1 ∧
    toBufferData (readFile ["v 1 2 3", "vn 0 1 0", "f 5//5 5//5 5//5 5//5"]) =
      none := by
  decide

/-- C9: every yaw reachable from the initial yaw 0 is an integer in
[0, 359]; on it a look-left event computes (yaw + 1) mod 360 and a
look-right event (yaw - 1) mod 360 (negative wrapping to 359), so the yaw
stays in [0, 359]; in particular look-left at 359 gives 0 and look-right at
0 gives 359. -/
theorem C9_yaw_wraps (y : ℚ) (h : ReachableYaw y) :
    (∃ n : ℤ, y = (n : ℚ) ∧ 0 ≤ n ∧ n ≤ 359 ∧
      lookLeft y = (((n + 1) % 360 : ℤ) : ℚ) ∧
      lookRight y = (((n - 1) % 360 : ℤ) : ℚ)) ∧
    lookLeft 359 = 0 ∧ lookRight 0 = 359 := by
  refine ⟨?_, by norm_num [lookLeft], by norm_num [lookRight]⟩
  obtain ⟨n, rfl, h0, h1⟩ := reachableYaw_int h
  refine ⟨n, rfl, h0, h1, ?_, ?_⟩
  · unfold lookLeft
    split_ifs with hge
    · have hn : n = 359 := le_antisymm h1 (by exact_mod_cast hge)
      subst hn; norm_num
    · have hn : n < 359 := by exact_mod_cast not_le.mp hge
      rw [Int.emod_eq_of_lt (by omega) (by omega)]
      push_cast; ring
  · unfold lookRight
    split_ifs with hle
    · have hn : n = 0 := le_antisymm (by exact_mod_cast hle) h0
      subst hn; norm_num
    · have hn : 0 < n := by exact_mod_cast not_le.mp hle
      rw [Int.emod_eq_of_lt (by omega) (by omega)]
      push_cast; ring

/-- C9, witness: the yaw facts at the initial yaw 0. -/
theorem C9_witness :
    (∃ n : ℤ, (0 : ℚ) = (n : ℚ) ∧ 0 ≤ n ∧ n ≤ 359 ∧
      lookLeft 0 = (((n + 1) % 360 : ℤ) : ℚ) ∧
      lookRight 0 = (((n - 1) % 360 : ℤ) : ℚ)) ∧
    lookLeft 359 = 0 ∧ lookRight 0 = 359 :=
  C9_yaw_wraps 0 ReachableYaw.init

/-- C10: neither teleport destination lies inside either trigger box, so a
position rewritten by the first sequential test never satisfies the second,
and the teleport check is idempotent: applying `teleportIfNecessary` twice
equals applying it once, for every position. -/
theorem C10_teleport_idempotent (p : Point3) :
    (inTrigger1 ⟨1.86, -7.54, -9.9⟩ = false ∧
     inTrigger2 ⟨1.86, -7.54, -9.9⟩ = false ∧
     inTrigger1 ⟨-9.35, -2, 0⟩ = false ∧
     inTrigger2 ⟨-9.35, -2, 0⟩ = false) ∧
    teleportIfNecessary (teleportIfNecessary p) = teleportIfNecessary p := by
  have hd1a : inTrigger1 ⟨1.86, -7.54, -9.9⟩ = false := by
    norm_num [inTrigger1, between]
  have hd1b : inTrigger2 ⟨1.86, -7.54, -9.9⟩ = false := by
    norm_num [inTrigger2, between]
  have hd2a : inTrigger1 ⟨-9.35, -2, 0⟩ = false := by
    norm_num [inTrigger1, between]
  have hd2b : inTrigger2 ⟨-9.35, -2, 0⟩ = false := by
    norm_num [inTrigger2, between]
  refine ⟨⟨hd1a, hd1b, hd2a, hd2b⟩, ?_⟩
  by_cases h1 : inTrigger1 p = true
  · simp [teleportIfNecessary, h1, hd1a, hd1b]
  · by_cases h2 : inTrigger2 p = true
    · simp [teleportIfNecessary, h1, h2, hd2a, hd2b]
    · simp [teleportIfNecessary, h1, h2]

end Mezzanine
